import Mathlib

/-!
Verification development for the LunaTV progressive virtualized grid
(`src/components/VirtualSearchGrid.tsx`, the two `VirtualDoubanGrid`
variants and the older `VirtualSearchGrid` variant shipped alongside it)
and the spider-jar provider utility.

Each definition is a shallow embedding of the corresponding TypeScript
function; JavaScript numbers that only ever hold small non-negative
integers are modelled as `Nat`, values that may go negative (time
differences, `rowCount - THRESHOLD`) as `Int`, arrays as `List`,
possibly-absent values (`undefined` / `null` / thrown-and-caught
errors) as `Option`.
-/

namespace LunaTV

/-! ## Progressive Reveal Controller (VirtualDoubanGrid, part_000 lines 36-84)

`const INITIAL_BATCH_SIZE = 16; const LOAD_MORE_BATCH_SIZE = 16;`
State owned by the component: `visibleItemCount` (the revealed count).
`isLoadingMore` / `hasMore` are externally supplied props. -/

def INITIAL_BATCH_SIZE : Nat := 16

def LOAD_MORE_BATCH_SIZE : Nat := 16

def LOAD_MORE_THRESHOLD : Nat := 5

/-- The reveal state of the controller: the count of locally revealed
items plus the externally supplied in-flight flag, as seen by
`loadMoreItems`. -/
structure RevealState where
  revealedCount : Nat
  remoteLoadInFlight : Bool
  deriving Repr, DecidableEq

/-- Result of one `loadMoreItems` call: the updated state and whether the
remote fetch callback (`onLoadMore`) was invoked. -/
structure LoadMoreResult where
  state : RevealState
  fetchInvoked : Bool
  deriving Repr, DecidableEq

/-- `const itemCount = Math.min(visibleItemCount, doubanData.length);`
(part_000 line 56). -/
def displayItemCount (revealedCount dataLen : Nat) : Nat :=
  min revealedCount dataLen

/-- Embedding of `loadMoreItems` (part_000 lines 73-84):
```
if (isLoadingMore) return;
if (displayItemCount < doubanData.length) {
  setVisibleItemCount(prev => Math.min(prev + LOAD_MORE_BATCH_SIZE, doubanData.length));
} else if (hasMore && !isLoadingMore) {
  onLoadMore();
}
```
The invocation of `onLoadMore()` is reported in `fetchInvoked`. -/
def loadMoreItems (s : RevealState) (dataLen : Nat) (remoteHasMore : Bool) :
    LoadMoreResult :=
  if s.remoteLoadInFlight then ⟨s, false⟩
  else if displayItemCount s.revealedCount dataLen < dataLen then
    ⟨{ s with revealedCount := min (s.revealedCount + LOAD_MORE_BATCH_SIZE) dataLen },
      false⟩
  else if remoteHasMore && !s.remoteLoadInFlight then ⟨s, true⟩
  else ⟨s, false⟩

/-- Modelled from the spec: the caller that owns the externally supplied
`isLoadingMore` flag (the page component hosting the grid, not under
`src/`) sets it to `true` when `onLoadMore()` is dispatched.  `requestMore`
is `loadMoreItems` followed by that caller-side flag update. -/
def requestMore (s : RevealState) (dataLen : Nat) (remoteHasMore : Bool) :
    LoadMoreResult :=
  let r := loadMoreItems s dataLen remoteHasMore
  if r.fetchInvoked then ⟨{ r.state with remoteLoadInFlight := true }, true⟩
  else r

/-! ## Exposure computation (part_000 lines 55-65) -/

/-- The memoised exposure record computed by the `useMemo` block. -/
structure Exposure (α : Type) where
  displayItemCount : Nat
  displayData : List α
  hasNextPage : Bool
  deriving Repr, DecidableEq

/-- Embedding of the exposure `useMemo` (part_000 lines 55-65):
```
const itemCount = Math.min(visibleItemCount, doubanData.length);
const data = doubanData.slice(0, itemCount);
const hasNext = itemCount < doubanData.length || hasMore;
```
-/
def computeExposure {α : Type} (doubanData : List α) (visibleItemCount : Nat)
    (hasMore : Bool) : Exposure α :=
  let itemCount := min visibleItemCount doubanData.length
  { displayItemCount := itemCount
    displayData := doubanData.take itemCount
    hasNextPage := decide (itemCount < doubanData.length) || hasMore }

/-! ## Window Geometry Calculator

Exact policy (VirtualDoubanGrid, part_000 lines 87-89):
`Math.max(1, Math.ceil(displayItemCount / columnCount))`.
Buffered policy (VirtualSearchGrid.tsx lines 111-116):
`Math.max(1, actualRows + bufferRows)` with
`bufferRows = Math.ceil(30 / columnCount)`.
`Math.ceil(a / c)` on non-negative integers is ceiling division,
written `a ⌈/⌉ c`. -/

/-- Exact-geometry `rowCount` (part_000 lines 87-89). -/
def rowCount (displayItemCount columnCount : Nat) : Nat :=
  max 1 (displayItemCount ⌈/⌉ columnCount)

/-- `const BUFFER_ITEMS = 30` inlined at VirtualSearchGrid.tsx line 114. -/
def BUFFER_ITEMS : Nat := 30

/-- Buffered `rowCount` (VirtualSearchGrid.tsx lines 111-116). -/
def rowCountBuffered (displayItemCount columnCount : Nat) : Nat :=
  max 1 (displayItemCount ⌈/⌉ columnCount + BUFFER_ITEMS ⌈/⌉ columnCount)

/-! ## Cell Resolver (VirtualSearchGrid.tsx lines 137-148, part_000 lines 101-115)

A rendered cell is either the empty placeholder `<div style={style} />` or
a populated card.  `displayData` is a list of possibly-null slots; reading
past the end of the array yields `undefined`, modelled by `getElem?`
returning `none`, and a null element is modelled by a `none` entry. -/

/-- What one grid cell renders to. -/
inductive Cell (α : Type) where
  | placeholder
  | card (item : α)
  deriving Repr, DecidableEq

/-- Embedding of the data-resolution logic of `CellComponent`:
```
const index = rowIndex * columnCount + columnIndex;
if (index >= displayItemCount) { return <div style={style} />; }
const item = displayData[index];
if (!item) { return <div style={style} />; }
return <div ...><VideoCard .../></div>;
```
-/
def CellComponent {α : Type} (displayData : List (Option α))
    (columnCount displayItemCount rowIndex columnIndex : Nat) : Cell α :=
  let index := rowIndex * columnCount + columnIndex
  if displayItemCount ≤ index then Cell.placeholder
  else
    match displayData[index]? with
    | none => Cell.placeholder
    | some none => Cell.placeholder
    | some (some item) => Cell.card item

/-! ## Reveal-count dynamics within one DataSource identity

Within one identity (the `doubanData` array reference unchanged) the only
operation touching `visibleItemCount` is `loadMoreItems`; the reset effect
`useEffect(() => setVisibleItemCount(INITIAL_BATCH_SIZE), [doubanData])`
(part_000 lines 68-70) runs exactly when the identity changes. -/

/-- One `loadMoreItems` call viewed as a transition on the revealed count;
`env = (isLoadingMore, hasMore)` are the externally supplied flags at call
time. -/
def revealStep (dataLen : Nat) (rc : Nat) (env : Bool × Bool) : Nat :=
  (loadMoreItems ⟨rc, env.1⟩ dataLen env.2).state.revealedCount

/-- A sequence of `loadMoreItems` calls within one identity. -/
def runReveals (dataLen : Nat) (rc : Nat) (envs : List (Bool × Bool)) : Nat :=
  envs.foldl (revealStep dataLen) rc

/-- The reset effect on a DataSource identity change (part_000 lines
68-70): `setVisibleItemCount(INITIAL_BATCH_SIZE)`, discarding the previous
count. -/
def resetOnSourceChange (_rc : Nat) : Nat := INITIAL_BATCH_SIZE

/-! ## Stale-fetch interaction (VirtualSearchGrid.tsx lines 83-108)

The search grid simulates the remote load with a 100 ms `setTimeout`
whose callback captures `totalItemCount` from the render closure:
```
setIsLoadingMore(true);
setTimeout(() => {
  setVisibleItemCount(prev => Math.min(prev + LOAD_MORE_BATCH_SIZE, totalItemCount));
  setIsLoadingMore(false);
}, 100);
```
The reset effect (lines 83-86) runs on a source change but never cancels
this timeout, and the callback carries no source-identity token. -/

namespace SearchGrid

def INITIAL_BATCH_SIZE : Nat := 12

def LOAD_MORE_BATCH_SIZE : Nat := 8

/-- Component state relevant to the load/reset interaction.  `pending`
models the armed 100 ms timeout together with the `totalItemCount` value
captured in its closure; `sourceId` numbers successive DataSource
identities. -/
structure GridState where
  visibleItemCount : Nat
  isLoadingMore : Bool
  totalItemCount : Nat
  sourceId : Nat
  pending : Option Nat
  deriving Repr, DecidableEq

/-- The discrete events acting on `GridState`. -/
inductive Event where
  | loadMore
  | sourceChange (newTotal : Nat)
  | timeoutFires
  deriving Repr, DecidableEq

/-- One event step.
* `loadMore` is `loadMoreItems` (lines 98-108): early return when
  `isLoadingMore || !hasNextPage` where
  `hasNextPage = min(visibleItemCount, total) < total`; otherwise set the
  in-flight flag and arm the timeout, capturing the current
  `totalItemCount`.
* `sourceChange` is the reset effect (lines 83-86):
  `setVisibleItemCount(INITIAL_BATCH_SIZE); setIsLoadingMore(false);` —
  the pending timeout is left armed.
* `timeoutFires` runs the armed callback:
  `setVisibleItemCount(prev => Math.min(prev + 8, capturedTotal));
  setIsLoadingMore(false);`. -/
def step (s : GridState) : Event → GridState
  | .loadMore =>
      if s.isLoadingMore || !(decide (min s.visibleItemCount s.totalItemCount < s.totalItemCount))
      then s
      else { s with isLoadingMore := true, pending := some s.totalItemCount }
  | .sourceChange n =>
      { s with totalItemCount := n, sourceId := s.sourceId + 1,
               visibleItemCount := INITIAL_BATCH_SIZE, isLoadingMore := false }
  | .timeoutFires =>
      match s.pending with
      | none => s
      | some capturedTotal =>
          { s with
              visibleItemCount := min (s.visibleItemCount + LOAD_MORE_BATCH_SIZE) capturedTotal,
              isLoadingMore := false, pending := none }

/-- Run a sequence of events. -/
def run (s : GridState) (es : List Event) : GridState := es.foldl step s

/-! ## Scroll-Proximity Trigger (VirtualSearchGrid.tsx lines 266-286)

```
const debounceRef = useRef<NodeJS.Timeout>();
const memoizedOnCellsRendered = useCallback(({ rowStopIndex }) => {
  if (debounceRef.current) { clearTimeout(debounceRef.current); }
  const actualRowCount = Math.ceil(displayItemCount / columnCount);
  if (rowStopIndex >= actualRowCount - LOAD_MORE_THRESHOLD && hasNextPage && !isLoadingMore) {
    debounceRef.current = setTimeout(() => {
      if (!isLoadingMore && hasNextPage) { loadMoreItems(); }
    }, 150);
  }
}, [columnCount, displayItemCount, hasNextPage, isLoadingMore, loadMoreItems]);
```
`hasNextPage`, `isLoadingMore`, `displayItemCount` and `columnCount` are
read from the render closure in which the callback was created; the
scheduled 150 ms callback reads that same closure.  A `Snapshot` records
those closure values. -/

/-- The closure values captured by one render of
`memoizedOnCellsRendered` (and hence by any timeout it schedules). -/
structure Snapshot where
  displayItemCount : Nat
  columnCount : Nat
  hasNextPage : Bool
  isLoadingMore : Bool
  deriving Repr, DecidableEq

/-- One visible-range notification: the reported `rowStopIndex` together
with the closure snapshot of the render that receives it. -/
structure Notif where
  rowStopIndex : Nat
  snap : Snapshot
  deriving Repr, DecidableEq

/-- Trigger state: the armed debounce timeout (with the snapshot its
callback closes over) and the number of `loadMoreItems` invocations
performed by fired callbacks so far. -/
structure TriggerState where
  pending : Option Snapshot
  invocations : Nat
  deriving Repr, DecidableEq

/-- The scheduling guard:
`rowStopIndex >= actualRowCount - LOAD_MORE_THRESHOLD && hasNextPage && !isLoadingMore`
with `actualRowCount = Math.ceil(displayItemCount / columnCount)`.  The
subtraction may go negative in JavaScript, so it is taken over `Int`. -/
def notifGuard (n : Notif) : Bool :=
  decide ((n.rowStopIndex : Int) ≥
    (n.snap.displayItemCount ⌈/⌉ n.snap.columnCount : Nat) - (LOAD_MORE_THRESHOLD : Int)) &&
  n.snap.hasNextPage && !n.snap.isLoadingMore

/-- Embedding of `memoizedOnCellsRendered`: unconditionally clear the
armed timeout, then re-arm it iff the guard passes. -/
def onCellsRendered (s : TriggerState) (n : Notif) : TriggerState :=
  let cleared : TriggerState := { s with pending := none }
  if notifGuard n then { cleared with pending := some n.snap } else cleared

/-- Process a burst of notifications. -/
def processAll (s : TriggerState) (ns : List Notif) : TriggerState :=
  ns.foldl onCellsRendered s

/-- The armed 150 ms callback elapses:
`if (!isLoadingMore && hasNextPage) { loadMoreItems(); }`, evaluated on
the snapshot the callback closed over; afterwards no timeout is armed. -/
def fireDebounce (s : TriggerState) : TriggerState :=
  match s.pending with
  | none => s
  | some snap =>
      if !snap.isLoadingMore && snap.hasNextPage
      then { pending := none, invocations := s.invocations + 1 }
      else { pending := none, invocations := s.invocations }

/-! To compare the fired callback's check against the component's flags at
fire time, the trigger is paired with the current flag values, which later
renders may have changed without producing a new notification. -/

/-- The trigger embedded in its component: the current `hasNextPage` /
`isLoadingMore` values plus the trigger state. -/
structure CompState where
  hasNextPage : Bool
  isLoadingMore : Bool
  trigger : TriggerState
  deriving Repr, DecidableEq

/-- Events acting on `CompState`: a visible-range notification (whose
snapshot is the current render's closure), a flag change from a later
render (remote completion, data arrival — no notification involved), and
the debounce timeout elapsing. -/
inductive TEvent where
  | notify (rowStopIndex displayItemCount columnCount : Nat)
  | setFlags (hasNextPage isLoadingMore : Bool)
  | fire
  deriving Repr, DecidableEq

/-- One component-level event step. -/
def tstep (s : CompState) : TEvent → CompState
  | .notify r d c =>
      { s with trigger := onCellsRendered s.trigger ⟨r, ⟨d, c, s.hasNextPage, s.isLoadingMore⟩⟩ }
  | .setFlags h l => { s with hasNextPage := h, isLoadingMore := l }
  | .fire => { s with trigger := fireDebounce s.trigger }

/-- Run component-level events. -/
def trun (s : CompState) (es : List TEvent) : CompState := es.foldl tstep s

/-! ## Group Statistics Cache (VirtualSearchGrid.tsx lines 156-162)

```
const { episodes, source_names, douban_id } = computeGroupStats(group);
...
if (!groupStatsRef.current.has(mapKey)) {
  groupStatsRef.current.set(mapKey, { episodes, source_names, douban_id });
}
```
`computeGroupStats` is a prop supplied by the parent page; it is applied
to the group on every cell render, and only the cache write is guarded.
The `Map` is modelled as an association list keyed by `mapKey`. -/

/-- Embedding of the group-stats portion of the aggregate branch of
`CellComponent`: returns the stats value the cell renders with, and the
cache after the guarded write. -/
def resolveAggStats {α β : Type} (computeGroupStats : List α → β)
    (groupStats : List (String × β)) (mapKey : String) (group : List α) :
    β × List (String × β) :=
  let s := computeGroupStats group
  if (groupStats.lookup mapKey).isSome then (s, groupStats)
  else (s, (mapKey, s) :: groupStats)

end SearchGrid

/-! ## Spider-jar provider (part_001)

The network, `crypto.createHash('md5')` and `Buffer.from(..., 'base64')`
are runtime collaborators: an HTTP exchange is modelled by an optional
`Resp` (with `none` meaning the fetch threw, e.g. on timeout/abort), the
hash by a function parameter `md5fn`, and the decoded fallback jar bytes
by a parameter `fallbackBuf`.  Buffers are lists of bytes. -/

namespace SpiderJar

/-- The remote candidate list (part_001 lines 11-26), in declared order. -/
def CANDIDATES : List String :=
  [ "https://gitcode.net/qq_26898231/TVBox/-/raw/main/JAR/XC.jar",
    "https://gitee.com/q215613905/TVBoxOS/raw/main/JAR/XC.jar",
    "https://cdn.jsdelivr.net/gh/hjdhnx/dr_py@main/js/drpy.jar",
    "https://cdn.jsdelivr.net/gh/FongMi/CatVodSpider@main/jar/spider.jar",
    "https://raw.githubusercontent.com/hjdhnx/dr_py/main/js/drpy.jar",
    "https://raw.githubusercontent.com/FongMi/CatVodSpider/main/jar/spider.jar",
    "https://ghproxy.com/https://raw.githubusercontent.com/hjdhnx/dr_py/main/js/drpy.jar" ]

/-- `const TTL = 6 * 60 * 60 * 1000` (part_001 line 46), milliseconds. -/
def TTL : Int := 6 * 60 * 60 * 1000

/-- An HTTP response as observed by `fetchRemote`: the `ok` flag, the
status code, and the body bytes (`none` when `arrayBuffer()` rejects). -/
structure Resp where
  ok : Bool
  status : Nat
  body : Option (List Nat)
  deriving Repr, DecidableEq

/-- Embedding of `fetchRemote` (part_001 lines 48-83).  A thrown fetch
(timeout, SSL failure) is the `none` argument; otherwise:
```
if (!resp.ok || resp.status >= 400) return null;
const ab = await resp.arrayBuffer();
if (ab.byteLength < 1000) return null;
return Buffer.from(ab);
```
with every `catch` path returning `null`. -/
def fetchRemote (r : Option Resp) : Option (List Nat) :=
  match r with
  | none => none
  | some resp =>
      if !resp.ok || decide (resp.status ≥ 400) then none
      else
        match resp.body with
        | none => none
        | some ab => if ab.length < 1000 then none else some ab

/-- The `SpiderJarInfo` record (part_001 lines 34-43). -/
structure SpiderJarInfo where
  buffer : List Nat
  md5 : String
  source : String
  success : Bool
  cached : Bool
  timestamp : Int
  size : Nat
  tried : Nat
  deriving Repr, DecidableEq

/-- The `for (const url of CANDIDATES)` probe loop (part_001 lines
99-119): try each candidate in order, counting attempts, and build the
success record from the first candidate whose fetch yields a buffer. -/
def tryCandidates (md5fn : List Nat → String) (now : Int)
    (responses : String → Option Resp) :
    List String → Nat → Option SpiderJarInfo
  | [], _ => none
  | url :: rest, tried =>
      match fetchRemote (responses url) with
      | some buf =>
          some { buffer := buf, md5 := md5fn buf, source := url, success := true,
                 cached := false, timestamp := now, size := buf.length,
                 tried := tried + 1 }
      | none => tryCandidates md5fn now responses rest (tried + 1)

/-- The probe-or-fallback tail of `getSpiderJar` (part_001 lines 99-136):
run the candidate loop; when every candidate fails, build the fallback
record from the embedded jar and cache it too. -/
def probeAll (md5fn : List Nat → String) (fallbackBuf : List Nat) (now : Int)
    (responses : String → Option Resp) :
    SpiderJarInfo × Option SpiderJarInfo :=
  match tryCandidates md5fn now responses CANDIDATES 0 with
  | some info => (info, some info)
  | none =>
      let fb : SpiderJarInfo :=
        { buffer := fallbackBuf, md5 := md5fn fallbackBuf, source := "fallback",
          success := false, cached := false, timestamp := now,
          size := fallbackBuf.length, tried := CANDIDATES.length }
      (fb, some fb)

/-- Embedding of `getSpiderJar` (part_001 lines 89-137).  The module-level
`cache` variable is passed in and the updated cache is returned alongside
the result:
```
if (!forceRefresh && cache && now - cache.timestamp < TTL) {
  return { ...cache, cached: true };
}
```
followed by the probe loop and the fallback. -/
def getSpiderJar (md5fn : List Nat → String) (fallbackBuf : List Nat)
    (cache : Option SpiderJarInfo) (now : Int) (forceRefresh : Bool)
    (responses : String → Option Resp) :
    SpiderJarInfo × Option SpiderJarInfo :=
  match cache with
  | some c =>
      if forceRefresh = false ∧ now - c.timestamp < TTL then
        ({ c with cached := true }, some c)
      else probeAll md5fn fallbackBuf now responses
  | none => probeAll md5fn fallbackBuf now responses

end SpiderJar

end LunaTV

/-! ### Theorems -/

namespace LunaTV

/-- C1: `requestMore` is a no-op when a remote load is in flight (state
unchanged, fetch callback not invoked); otherwise, when fewer than all
local items are exposed it synchronously bumps `revealedCount` by
`LOAD_MORE_BATCH_SIZE` capped at the data length without invoking the
fetch callback; otherwise, when the remote source has more, it sets the
in-flight flag and invokes the fetch callback, leaving `revealedCount`
unchanged. -/
theorem requestMore_spec (s : RevealState) (dataLen : Nat) (remoteHasMore : Bool) :
    (s.remoteLoadInFlight = true →
      requestMore s dataLen remoteHasMore = ⟨s, false⟩) ∧
    (s.remoteLoadInFlight = false →
      displayItemCount s.revealedCount dataLen < dataLen →
      requestMore s dataLen remoteHasMore =
        ⟨{ s with revealedCount := min (s.revealedCount + LOAD_MORE_BATCH_SIZE) dataLen },
          false⟩) ∧
    (s.remoteLoadInFlight = false →
      ¬ displayItemCount s.revealedCount dataLen < dataLen →
      remoteHasMore = true →
      requestMore s dataLen remoteHasMore =
        ⟨{ s with remoteLoadInFlight := true }, true⟩) := by
  refine ⟨fun hIn => ?_, fun hIn hLt => ?_, fun hIn hGe hMore => ?_⟩
  · simp [requestMore, loadMoreItems, hIn]
  · simp [requestMore, loadMoreItems, hIn, hLt]
  · simp [requestMore, loadMoreItems, hIn, hGe, hMore]

/-- C1 witness: with `revealedCount = 16`, 40 local items and no load in
flight, `requestMore` reveals up to 32 locally without fetching; at
`revealedCount = 40` with `remoteHasMore` it dispatches the fetch. -/
theorem requestMore_spec_witness :
    requestMore ⟨16, false⟩ 40 false = ⟨⟨32, false⟩, false⟩ ∧
    requestMore ⟨40, false⟩ 40 true = ⟨⟨40, true⟩, true⟩ ∧
    requestMore ⟨16, true⟩ 40 true = ⟨⟨16, true⟩, false⟩ := by
  refine ⟨?_, ?_, ?_⟩
  · have h := (requestMore_spec ⟨16, false⟩ 40 false).2.1 rfl (by decide)
    simpa using h
  · have h := (requestMore_spec ⟨40, false⟩ 40 true).2.2 rfl (by decide) rfl
    simpa using h
  · have h := (requestMore_spec ⟨16, true⟩ 40 true).1 rfl
    simpa using h

/-- C2: the exposure computation returns
`exposedCount = min(revealedCount, len(dataSource))`, the exposed slice is
exactly the first `exposedCount` elements of the data source, and
`hasNextPage` holds iff some local items remain unexposed or the remote
source has more. -/
theorem computeExposure_spec {α : Type} (doubanData : List α)
    (visibleItemCount : Nat) (hasMore : Bool) :
    (computeExposure doubanData visibleItemCount hasMore).displayItemCount =
      min visibleItemCount doubanData.length ∧
    (computeExposure doubanData visibleItemCount hasMore).displayData.length =
      min visibleItemCount doubanData.length ∧
    (∀ i : Nat, i < min visibleItemCount doubanData.length →
      (computeExposure doubanData visibleItemCount hasMore).displayData.get? i =
        doubanData.get? i) ∧
    ((computeExposure doubanData visibleItemCount hasMore).hasNextPage = true ↔
      (min visibleItemCount doubanData.length < doubanData.length ∨ hasMore = true)) := by
  refine ⟨rfl, ?_, fun i hi => ?_, ?_⟩
  · simp [computeExposure, List.length_take]
  · simp [computeExposure, List.getElem?_take_of_lt hi]
  · simp [computeExposure]

/-- C2 witness: 12 of 40 items revealed, remote exhausted — the exposure
exposes 12 items, the slice agrees with the source on index 5, and a next
page exists. -/
theorem computeExposure_spec_witness :
    (computeExposure (List.range 40) 12 false).displayItemCount = 12 ∧
    (computeExposure (List.range 40) 12 false).displayData.get? 5 =
      (List.range 40).get? 5 ∧
    ((computeExposure (List.range 40) 12 false).hasNextPage = true ↔
      (min 12 (List.range 40).length < (List.range 40).length ∨ False)) := by
  have h := computeExposure_spec (List.range 40) 12 false
  refine ⟨by simpa using h.1, ?_, ?_⟩
  · exact h.2.2.1 5 (by simp)
  · simpa using h.2.2.2

/-- C7: for `columnCount ≥ 1`, the exact-geometry policy yields
`rowCount = max(1, ceil(min(revealedCount, N) / columnCount))`: the result
is the least row count `m ≥ 1` whose `m * columnCount` cells cover the
exposed items; the buffered policy yields exactly
`ceil(BUFFER_ITEMS / columnCount)` additional buffer rows on top of the
data rows. -/
theorem rowCount_spec (revealedCount dataLen columnCount : Nat)
    (hc : 1 ≤ columnCount) :
    (rowCount (displayItemCount revealedCount dataLen) columnCount =
      max 1 (min revealedCount dataLen ⌈/⌉ columnCount)) ∧
    (1 ≤ rowCount (displayItemCount revealedCount dataLen) columnCount) ∧
    (min revealedCount dataLen ≤
      rowCount (displayItemCount revealedCount dataLen) columnCount * columnCount) ∧
    (∀ m : Nat, 1 ≤ m → min revealedCount dataLen ≤ m * columnCount →
      rowCount (displayItemCount revealedCount dataLen) columnCount ≤ m) ∧
    (rowCountBuffered (displayItemCount revealedCount dataLen) columnCount =
      min revealedCount dataLen ⌈/⌉ columnCount + BUFFER_ITEMS ⌈/⌉ columnCount) := by
  have hc0 : 0 < columnCount := hc
  have hcover : ∀ a : Nat, a ≤ (a ⌈/⌉ columnCount) * columnCount := by
    intro a
    have h := le_smul_ceilDiv (b := a) hc0
    simpa [smul_eq_mul, Nat.mul_comm] using h
  have hbuf : 1 ≤ BUFFER_ITEMS ⌈/⌉ columnCount := by
    by_contra hlt
    have h0 : BUFFER_ITEMS ⌈/⌉ columnCount = 0 := by omega
    have := hcover BUFFER_ITEMS
    rw [h0] at this
    simp [BUFFER_ITEMS] at this
  refine ⟨rfl, le_max_left _ _, ?_, ?_, ?_⟩
  · calc min revealedCount dataLen
        ≤ (min revealedCount dataLen ⌈/⌉ columnCount) * columnCount := hcover _
      _ ≤ rowCount (displayItemCount revealedCount dataLen) columnCount * columnCount := by
          have : min revealedCount dataLen ⌈/⌉ columnCount ≤
              rowCount (displayItemCount revealedCount dataLen) columnCount :=
            le_max_right _ _
          exact Nat.mul_le_mul_right _ this
  · intro m hm hcov
    have hle : min revealedCount dataLen ⌈/⌉ columnCount ≤ m := by
      have h := (ceilDiv_le_iff_le_smul (b := min revealedCount dataLen)
        (c := m) hc0).2
      exact h (by simpa [smul_eq_mul, Nat.mul_comm] using hcov)
    simp only [rowCount, displayItemCount]
    omega
  · simp only [rowCountBuffered, displayItemCount]
    omega

/-- C7 witness: 40 items, 16 revealed, 4 columns — exact policy gives 4
rows (the least cover of 16 items), buffered adds exactly
`ceil(30 / 4) = 8` buffer rows for a total of 12. -/
theorem rowCount_spec_witness :
    rowCount (displayItemCount 16 40) 4 = 4 ∧
    rowCountBuffered (displayItemCount 16 40) 4 = 4 + 8 := by
  have h := rowCount_spec 16 40 4 (by decide)
  constructor
  · rw [h.1]
    decide
  · rw [h.2.2.2.2]
    decide

/-- C9: for a cell at `(rowIndex, columnIndex)` with
`index = rowIndex * columnCount + columnIndex`, the resolver emits the
empty placeholder whenever the index is at or past `displayItemCount`, or
the exposed slice has no entry at the index (array shorter than expected),
or the entry is null; and it is total — every coordinate yields either the
placeholder or a card built from the item actually present, never a
failure. -/
theorem CellComponent_spec {α : Type} (displayData : List (Option α))
    (columnCount displayItemCount rowIndex columnIndex : Nat) :
    (displayItemCount ≤ rowIndex * columnCount + columnIndex →
      CellComponent displayData columnCount displayItemCount rowIndex columnIndex =
        Cell.placeholder) ∧
    (displayData[rowIndex * columnCount + columnIndex]? = none →
      CellComponent displayData columnCount displayItemCount rowIndex columnIndex =
        Cell.placeholder) ∧
    (displayData[rowIndex * columnCount + columnIndex]? = some none →
      CellComponent displayData columnCount displayItemCount rowIndex columnIndex =
        Cell.placeholder) ∧
    (CellComponent displayData columnCount displayItemCount rowIndex columnIndex =
        Cell.placeholder ∨
      ∃ item : α, displayData[rowIndex * columnCount + columnIndex]? = some (some item) ∧
        CellComponent displayData columnCount displayItemCount rowIndex columnIndex =
          Cell.card item) := by
  refine ⟨fun hge => ?_, fun hnone => ?_, fun hnull => ?_, ?_⟩
  · simp [CellComponent, hge]
  · by_cases hge : displayItemCount ≤ rowIndex * columnCount + columnIndex
    · simp [CellComponent, hge]
    · simp [CellComponent, hge, hnone]
  · by_cases hge : displayItemCount ≤ rowIndex * columnCount + columnIndex
    · simp [CellComponent, hge]
    · simp [CellComponent, hge, hnull]
  · by_cases hge : displayItemCount ≤ rowIndex * columnCount + columnIndex
    · left; simp [CellComponent, hge]
    · rcases hitem : displayData[rowIndex * columnCount + columnIndex]? with _ | item
      · left; simp [CellComponent, hge, hitem]
      · rcases item with _ | a
        · left; simp [CellComponent, hge, hitem]
        · right; exact ⟨a, rfl, by simp [CellComponent, hge, hitem]⟩

/-- C9 witness: with 2 columns and 3 exposed items over the slice
`[some 10, none, some 30]`, cell (0,0) renders the card for item 10, cell
(0,1) hits the null entry and renders the placeholder, cell (1,1) has
index 3 ≥ 3 and renders the placeholder. -/
theorem CellComponent_spec_witness :
    CellComponent [some 10, none, some 30] 2 3 0 0 = Cell.card 10 ∧
    CellComponent [some 10, none, some 30] 2 3 0 1 = Cell.placeholder ∧
    CellComponent [some 10, none, some 30] 2 3 1 1 = Cell.placeholder := by
  refine ⟨?_, ?_, ?_⟩
  · rcases (CellComponent_spec [some 10, none, some 30] 2 3 0 0).2.2.2 with h | ⟨a, ha, h⟩
    · simp [CellComponent] at h
    · have h10 : (10 : Nat) = a := by simpa using ha
      rw [h, ← h10]
  · exact (CellComponent_spec [some 10, none, some 30] 2 3 0 1).2.2.1 (by decide)
  · exact (CellComponent_spec [some 10, none, some 30] 2 3 1 1).1 (by decide)

/-- Helper: a single `loadMoreItems` call never decreases the revealed
count. -/
theorem revealStep_le (dataLen rc : Nat) (env : Bool × Bool) :
    rc ≤ revealStep dataLen rc env := by
  rcases env with ⟨l, h⟩
  simp only [revealStep, loadMoreItems, displayItemCount]
  rcases l with _ | _ <;> rcases h with _ | _ <;> split_ifs <;> simp_all <;> omega

/-- Helper: any sequence of `loadMoreItems` calls never decreases the
revealed count. -/
theorem runReveals_le (dataLen : Nat) (envs : List (Bool × Bool)) :
    ∀ rc : Nat, rc ≤ runReveals dataLen rc envs := by
  induction envs with
  | nil => intro rc; simp [runReveals]
  | cons e rest ih =>
      intro rc
      have h1 := revealStep_le dataLen rc e
      have h2 := ih (revealStep dataLen rc e)
      simpa [runReveals] using le_trans h1 h2

/-- C8: within one DataSource identity the revealed count is monotonically
non-decreasing across every sequence of `loadMoreItems` calls, whatever
the externally supplied flags at each call; the only operation that sets
it back is the source-change effect, which unconditionally resets it to
`INITIAL_BATCH_SIZE`. -/
theorem revealedCount_monotone_reset (dataLen rc : Nat)
    (envs : List (Bool × Bool)) :
    rc ≤ runReveals dataLen rc envs ∧
    resetOnSourceChange rc = INITIAL_BATCH_SIZE := by
  exact ⟨runReveals_le dataLen envs rc, rfl⟩

/-- C3: the code at the cited lines has no source-identity token — the
100 ms load-completion callback armed against one DataSource identity
still mutates the next identity's revealed count.  Concretely: starting
from 12 revealed of 40 items, a load is dispatched, the source changes to
a 5-item source (reset to 12, identity 1), and when the stale callback
fires it bumps the new identity's revealed count from 12 to
`min(12 + 8, 40) = 20`. -/
theorem staleTimeout_mutates_new_identity :
    (SearchGrid.run ⟨12, false, 40, 0, none⟩
        [SearchGrid.Event.loadMore, SearchGrid.Event.sourceChange 5]).visibleItemCount
      = 12 ∧
    (SearchGrid.run ⟨12, false, 40, 0, none⟩
        [SearchGrid.Event.loadMore, SearchGrid.Event.sourceChange 5]).sourceId = 1 ∧
    (SearchGrid.run ⟨12, false, 40, 0, none⟩
        [SearchGrid.Event.loadMore, SearchGrid.Event.sourceChange 5,
         SearchGrid.Event.timeoutFires]).sourceId = 1 ∧
    (SearchGrid.run ⟨12, false, 40, 0, none⟩
        [SearchGrid.Event.loadMore, SearchGrid.Event.sourceChange 5,
         SearchGrid.Event.timeoutFires]).visibleItemCount = 20 := by
  decide

/-- Helper: `memoizedOnCellsRendered` never invokes anything itself. -/
theorem onCellsRendered_invocations (s : SearchGrid.TriggerState)
    (n : SearchGrid.Notif) :
    (SearchGrid.onCellsRendered s n).invocations = s.invocations := by
  by_cases h : SearchGrid.notifGuard n <;> simp [SearchGrid.onCellsRendered, h]

/-- Helper: a whole burst of notifications invokes nothing by itself. -/
theorem processAll_invocations (ns : List SearchGrid.Notif) :
    ∀ s : SearchGrid.TriggerState,
      (SearchGrid.processAll s ns).invocations = s.invocations := by
  induction ns with
  | nil => intro s; simp [SearchGrid.processAll]
  | cons n rest ih =>
      intro s
      have h1 := onCellsRendered_invocations s n
      have h2 := ih (SearchGrid.onCellsRendered s n)
      simp only [SearchGrid.processAll, List.foldl_cons] at h2 ⊢
      omega

/-- Helper: after a non-empty burst whose every notification passes the
guard, exactly one timeout is armed and its captured snapshot has
`hasNextPage` set and `isLoadingMore` clear. -/
theorem processAll_pending_guard (ns : List SearchGrid.Notif) :
    ∀ s : SearchGrid.TriggerState, ns ≠ [] →
      (∀ n ∈ ns, SearchGrid.notifGuard n = true) →
      ∃ snap : SearchGrid.Snapshot,
        (SearchGrid.processAll s ns).pending = some snap ∧
        snap.hasNextPage = true ∧ snap.isLoadingMore = false := by
  induction ns with
  | nil => intro s hne _; exact absurd rfl hne
  | cons n rest ih =>
      intro s _ hall
      by_cases hr : rest = []
      · subst hr
        have hg := hall n (by simp)
        have hg2 := hg
        simp only [SearchGrid.notifGuard, Bool.and_eq_true, Bool.not_eq_eq_eq_not,
          Bool.not_true] at hg2
        refine ⟨n.snap, ?_, hg2.1.2, hg2.2⟩
        simp [SearchGrid.processAll, SearchGrid.onCellsRendered, hg]
      · have h := ih (SearchGrid.onCellsRendered s n) hr
          (fun m hm => hall m (by simp [hm]))
        simpa [SearchGrid.processAll] using h

/-- C4: a non-empty burst of visible-range notifications, each passing the
proximity-and-flags guard and all arriving within one debounce window,
results in exactly one `loadMoreItems` invocation: every notification
first cancels whatever timeout was armed (the armed timeout after each
notification is determined by that notification alone), the burst itself
invokes nothing, and the single armed timeout's firing invokes
`loadMoreItems` exactly once. -/
theorem debounce_coalesce (s : SearchGrid.TriggerState)
    (notifs : List SearchGrid.Notif) (hne : notifs ≠ [])
    (hall : ∀ n ∈ notifs, SearchGrid.notifGuard n = true) :
    (∀ (t : SearchGrid.TriggerState) (n : SearchGrid.Notif),
      (SearchGrid.onCellsRendered t n).pending =
        if SearchGrid.notifGuard n then some n.snap else none) ∧
    (SearchGrid.processAll s notifs).invocations = s.invocations ∧
    (SearchGrid.fireDebounce (SearchGrid.processAll s notifs)).invocations =
      s.invocations + 1 := by
  refine ⟨fun t n => ?_, processAll_invocations notifs s, ?_⟩
  · by_cases h : SearchGrid.notifGuard n <;> simp [SearchGrid.onCellsRendered, h]
  · obtain ⟨snap, hp, hn, hl⟩ := processAll_pending_guard notifs s hne hall
    have hi := processAll_invocations notifs s
    simp [SearchGrid.fireDebounce, hp, hn, hl, hi]

/-- C4 witness: two notifications at `rowStopIndex = 9` over 40 exposed
items in 4 columns (actual row count 10, threshold 5) coalesce into a
single invocation once the debounce fires. -/
theorem debounce_coalesce_witness :
    (SearchGrid.fireDebounce (SearchGrid.processAll ⟨none, 0⟩
        [⟨9, ⟨40, 4, true, false⟩⟩, ⟨9, ⟨40, 4, true, false⟩⟩])).invocations
      = 0 + 1 := by
  exact (debounce_coalesce ⟨none, 0⟩
    [⟨9, ⟨40, 4, true, false⟩⟩, ⟨9, ⟨40, 4, true, false⟩⟩]
    (by decide) (by decide)).2.2

/-- C5 counterexample: the fired callback reads the closure captured at
scheduling time, not the values at fire time.  Concretely: a notification
passes the guard while `hasNextPage = true`; before the 150 ms timeout
elapses a later render sets `hasNextPage = false` (no new notification);
at fire time `hasNextPage` is `false`, yet the callback still invokes
`loadMoreItems` — contradicting the claim that `requestMore` is invoked
only if the conditions hold at fire time. -/
theorem fireTime_check_counterexample :
    (SearchGrid.trun ⟨true, false, ⟨none, 0⟩⟩
      [SearchGrid.TEvent.notify 9 40 4,
       SearchGrid.TEvent.setFlags false false]).hasNextPage = false ∧
    ((SearchGrid.trun ⟨true, false, ⟨none, 0⟩⟩
      [SearchGrid.TEvent.notify 9 40 4,
       SearchGrid.TEvent.setFlags false false]).trigger.pending).isSome = true ∧
    (SearchGrid.trun ⟨true, false, ⟨none, 0⟩⟩
      [SearchGrid.TEvent.notify 9 40 4,
       SearchGrid.TEvent.setFlags false false,
       SearchGrid.TEvent.fire]).trigger.invocations = 1 := by
  decide

/-- C5 (amended): when the armed debounce timeout fires, it re-checks
`hasNextPage` and `NOT isLoadingMore` on the values captured in the
scheduling render's closure, invokes `loadMoreItems` exactly when both of
those captured values hold, and the trigger returns to idle (no armed
timeout) regardless of the outcome. -/
theorem fireDebounce_spec (s : SearchGrid.TriggerState)
    (snap : SearchGrid.Snapshot) (hp : s.pending = some snap) :
    (SearchGrid.fireDebounce s).pending = none ∧
    ((SearchGrid.fireDebounce s).invocations = s.invocations + 1 ↔
      (snap.isLoadingMore = false ∧ snap.hasNextPage = true)) ∧
    ((SearchGrid.fireDebounce s).invocations = s.invocations ∨
      (SearchGrid.fireDebounce s).invocations = s.invocations + 1) := by
  by_cases hl : snap.isLoadingMore = false
  · by_cases hn : snap.hasNextPage = true
    · simp [SearchGrid.fireDebounce, hp, hl, hn]
    · simp only [Bool.not_eq_true] at hn
      simp [SearchGrid.fireDebounce, hp, hl, hn]
  · simp only [Bool.not_eq_false] at hl
    simp [SearchGrid.fireDebounce, hp, hl]

/-- C5 witness: an armed timeout whose snapshot has `hasNextPage = true`
and `isLoadingMore = false` fires into one invocation and leaves the
trigger idle. -/
theorem fireDebounce_spec_witness :
    (SearchGrid.fireDebounce ⟨some ⟨40, 4, true, false⟩, 0⟩).pending = none ∧
    (SearchGrid.fireDebounce ⟨some ⟨40, 4, true, false⟩, 0⟩).invocations = 0 + 1 := by
  have h := fireDebounce_spec ⟨some ⟨40, 4, true, false⟩, 0⟩ ⟨40, 4, true, false⟩ rfl
  exact ⟨h.1, h.2.1.2 ⟨rfl, rfl⟩⟩

/-- C6 counterexample: `computeGroupStats` is applied to the group on
every cell render, and the rendered value is the fresh result, not the
cached one.  With `computeGroupStats = length`, key `k` first resolved on
a one-element group (stats 1, cached), then resolved again after the
group mutated in place to two elements: the second resolution renders
stats 2 ≠ 1, even though the cache still holds 1 — so the stats are
computed more than once and the second request does not yield the cached
value. -/
theorem groupStats_recompute_counterexample :
    (SearchGrid.resolveAggStats (fun g => g.length)
        (SearchGrid.resolveAggStats (fun g : List Nat => g.length) [] "k" [0]).2
        "k" [0, 0]).1 ≠
      (SearchGrid.resolveAggStats (fun g : List Nat => g.length) [] "k" [0]).1 ∧
    (SearchGrid.resolveAggStats (fun g => g.length)
        (SearchGrid.resolveAggStats (fun g : List Nat => g.length) [] "k" [0]).2
        "k" [0, 0]).2.lookup "k" = some 1 := by
  decide

/-- C6 (amended): the cache entry for a group key is written at most once
per DataSource identity — once present it is never overwritten, so
re-reading the cache yields the identical first-computed value even if
the group's items have mutated — but `computeGroupStats` itself is
re-invoked on every cell resolution and the resolver renders the fresh
result. -/
theorem resolveAggStats_spec {α β : Type} (f : List α → β)
    (cache : List (String × β)) (key : String) (g : List α) :
    (SearchGrid.resolveAggStats f cache key g).1 = f g ∧
    (∀ s0 : β, cache.lookup key = some s0 →
      (SearchGrid.resolveAggStats f cache key g).2.lookup key = some s0) ∧
    (cache.lookup key = none →
      (SearchGrid.resolveAggStats f cache key g).2.lookup key = some (f g)) := by
  refine ⟨?_, fun s0 h0 => ?_, fun h0 => ?_⟩
  · by_cases h : (cache.lookup key).isSome <;>
      simp [SearchGrid.resolveAggStats, h]
  · simp [SearchGrid.resolveAggStats, h0]
  · simp [SearchGrid.resolveAggStats, h0, List.lookup]

/-- C6 amended-claim witness: on a fresh cache the first resolution of
key `k` renders `f [0] = 1` and inserts it; a cache already holding 7 for
`k` keeps 7 after another resolution. -/
theorem resolveAggStats_spec_witness :
    (SearchGrid.resolveAggStats (fun g : List Nat => g.length) [] "k" [0]).1 = 1 ∧
    (SearchGrid.resolveAggStats (fun g : List Nat => g.length) [] "k" [0]).2.lookup "k"
      = some 1 ∧
    (SearchGrid.resolveAggStats (fun g : List Nat => g.length)
      [("k", 7)] "k" [0, 0, 0]).2.lookup "k" = some 7 := by
  have h1 := resolveAggStats_spec (fun g : List Nat => g.length) [] "k" [0]
  have h2 := resolveAggStats_spec (fun g : List Nat => g.length) [("k", 7)] "k" [0, 0, 0]
  refine ⟨by simpa using h1.1, ?_, ?_⟩
  · have := h1.2.2 (by decide)
    simpa using this
  · have := h2.2.1 7 (by decide)
    simpa using this

/-- Helper: when every candidate's fetch fails, the probe loop yields
nothing. -/
theorem tryCandidates_all_fail (md5fn : List Nat → String) (now : Int)
    (responses : String → Option SpiderJar.Resp) (urls : List String) :
    ∀ acc : Nat, (∀ u ∈ urls, SpiderJar.fetchRemote (responses u) = none) →
      SpiderJar.tryCandidates md5fn now responses urls acc = none := by
  induction urls with
  | nil => intro acc _; rfl
  | cons url rest ih =>
      intro acc hall
      have h0 : SpiderJar.fetchRemote (responses url) = none :=
        hall url (by simp)
      have hr := ih (acc + 1) (fun u hu => hall u (by simp [hu]))
      simp [SpiderJar.tryCandidates, h0, hr]

/-- Helper: the probe loop returns the record of the first candidate, in
declared order, whose fetch yields a buffer, counting every attempt made
so far. -/
theorem tryCandidates_first_success (md5fn : List Nat → String) (now : Int)
    (responses : String → Option SpiderJar.Resp) (urls : List String) :
    ∀ (acc i : Nat) (url : String) (buf : List Nat),
      (∀ j : Nat, j < i → ∀ u : String, urls[j]? = some u →
        SpiderJar.fetchRemote (responses u) = none) →
      urls[i]? = some url →
      SpiderJar.fetchRemote (responses url) = some buf →
      SpiderJar.tryCandidates md5fn now responses urls acc =
        some { buffer := buf, md5 := md5fn buf, source := url, success := true,
               cached := false, timestamp := now, size := buf.length,
               tried := acc + i + 1 } := by
  induction urls with
  | nil => intro acc i url buf _ hi _; simp at hi
  | cons u0 rest ih =>
      intro acc i url buf hfail hi hsucc
      cases i with
      | zero =>
          have hu : u0 = url := by simpa using hi
          subst hu
          simp [SpiderJar.tryCandidates, hsucc]
      | succ i0 =>
          have h0 : SpiderJar.fetchRemote (responses u0) = none :=
            hfail 0 (Nat.succ_pos i0) u0 (by simp)
          have hrest := ih (acc + 1) i0 url buf
            (fun j hj u hu => hfail (j + 1) (Nat.succ_lt_succ hj) u (by simpa using hu))
            (by simpa using hi) hsucc
          have hstep :
              SpiderJar.tryCandidates md5fn now responses (u0 :: rest) acc =
                SpiderJar.tryCandidates md5fn now responses rest (acc + 1) := by
            simp [SpiderJar.tryCandidates, h0]
          rw [hstep, hrest]
          have : acc + 1 + i0 + 1 = acc + (i0 + 1) + 1 := by omega
          rw [this]

/-- Helper: whenever the cache cannot be served (absent, refresh forced,
or expired), `getSpiderJar` runs the probe-or-fallback path. -/
theorem getSpiderJar_miss (md5fn : List Nat → String) (fallbackBuf : List Nat)
    (cache : Option SpiderJar.SpiderJarInfo) (now : Int) (forceRefresh : Bool)
    (responses : String → Option SpiderJar.Resp)
    (hmiss : cache = none ∨ forceRefresh = true ∨
      ∀ c : SpiderJar.SpiderJarInfo, cache = some c →
        SpiderJar.TTL ≤ now - c.timestamp) :
    SpiderJar.getSpiderJar md5fn fallbackBuf cache now forceRefresh responses =
      SpiderJar.probeAll md5fn fallbackBuf now responses := by
  cases cache with
  | none => rfl
  | some c =>
      have hcond : ¬ (forceRefresh = false ∧ now - c.timestamp < SpiderJar.TTL) := by
        rcases hmiss with h | h | h
        · exact absurd h (by simp)
        · intro hc; rw [h] at hc; exact absurd hc.1 (by simp)
        · intro hc; exact absurd hc.2 (not_lt.2 (h c rfl))
      simp [SpiderJar.getSpiderJar, hcond]

/-- C10: `getSpiderJar` always resolves (it is a total function of the
cache, clock and per-candidate responses) and
* a fetch yields a buffer exactly when it did not throw, the response was
  ok with status below 400, the body was read, and it has at least 1000
  bytes — anything else rejects the candidate and the next one is tried;
* within the 6-hour TTL, without `forceRefresh`, the cached record is
  returned marked `cached = true` and the stored cache is unchanged;
* on a cache miss, the candidates are probed in declared order and the
  first one to yield a buffer produces a success record
  (`success = true`, `source` = that url, `tried` = its 1-based position)
  which is stored in the cache;
* when every candidate fails, the embedded fallback jar is returned with
  `success = false` and `source = "fallback"`, and that record is itself
  stored in the cache. -/
theorem getSpiderJar_spec (md5fn : List Nat → String) (fallbackBuf : List Nat)
    (cache : Option SpiderJar.SpiderJarInfo) (now : Int) (forceRefresh : Bool)
    (responses : String → Option SpiderJar.Resp) :
    (SpiderJar.fetchRemote none = none) ∧
    (∀ (resp : SpiderJar.Resp) (buf : List Nat),
      SpiderJar.fetchRemote (some resp) = some buf ↔
        (resp.ok = true ∧ resp.status < 400 ∧ resp.body = some buf ∧
          1000 ≤ buf.length)) ∧
    (∀ c : SpiderJar.SpiderJarInfo, cache = some c → forceRefresh = false →
      now - c.timestamp < SpiderJar.TTL →
      SpiderJar.getSpiderJar md5fn fallbackBuf cache now forceRefresh responses =
        ({ c with cached := true }, some c)) ∧
    ((cache = none ∨ forceRefresh = true ∨
        ∀ c : SpiderJar.SpiderJarInfo, cache = some c →
          SpiderJar.TTL ≤ now - c.timestamp) →
      (∀ (i : Nat) (url : String) (buf : List Nat),
        (∀ j : Nat, j < i → ∀ u : String, SpiderJar.CANDIDATES[j]? = some u →
          SpiderJar.fetchRemote (responses u) = none) →
        SpiderJar.CANDIDATES[i]? = some url →
        SpiderJar.fetchRemote (responses url) = some buf →
        SpiderJar.getSpiderJar md5fn fallbackBuf cache now forceRefresh responses =
          ({ buffer := buf, md5 := md5fn buf, source := url, success := true,
             cached := false, timestamp := now, size := buf.length, tried := i + 1 },
           some { buffer := buf, md5 := md5fn buf, source := url, success := true,
                  cached := false, timestamp := now, size := buf.length,
                  tried := i + 1 })) ∧
      ((∀ u ∈ SpiderJar.CANDIDATES, SpiderJar.fetchRemote (responses u) = none) →
        SpiderJar.getSpiderJar md5fn fallbackBuf cache now forceRefresh responses =
          ({ buffer := fallbackBuf, md5 := md5fn fallbackBuf, source := "fallback",
             success := false, cached := false, timestamp := now,
             size := fallbackBuf.length, tried := SpiderJar.CANDIDATES.length },
           some { buffer := fallbackBuf, md5 := md5fn fallbackBuf,
                  source := "fallback", success := false, cached := false,
                  timestamp := now, size := fallbackBuf.length,
                  tried := SpiderJar.CANDIDATES.length }))) := by
  refine ⟨rfl, fun resp buf => ?_, fun c hc hf ht => ?_, fun hmiss => ⟨?_, ?_⟩⟩
  · constructor
    · intro h
      simp only [SpiderJar.fetchRemote] at h
      by_cases hok : resp.ok = true
      · by_cases hst : resp.status ≥ 400
        · simp [hok, hst] at h
        · rcases hb : resp.body with _ | ab
          · simp [hok, hst, hb] at h
          · by_cases hlen : ab.length < 1000
            · simp [hok, hst, hb, hlen] at h
            · simp only [hok, hst, hb, hlen] at h
              simp at h
              subst h
              refine ⟨hok, by omega, rfl, by omega⟩
      · simp [Bool.not_eq_true] at hok
        simp [hok] at h
    · rintro ⟨hok, hst, hb, hlen⟩
      have hst2 : ¬ resp.status ≥ 400 := by omega
      have hlen2 : ¬ buf.length < 1000 := by omega
      simp [SpiderJar.fetchRemote, hok, hst2, hb, hlen2]
  · subst hc hf
    simp [SpiderJar.getSpiderJar, ht]
  · intro i url buf hfail hi hsucc
    rw [getSpiderJar_miss md5fn fallbackBuf cache now forceRefresh responses hmiss]
    have h := tryCandidates_first_success md5fn now responses SpiderJar.CANDIDATES
      0 i url buf hfail hi hsucc
    simp only [Nat.zero_add] at h
    simp [SpiderJar.probeAll, h]
  · intro hall
    rw [getSpiderJar_miss md5fn fallbackBuf cache now forceRefresh responses hmiss]
    have h := tryCandidates_all_fail md5fn now responses SpiderJar.CANDIDATES 0 hall
    simp [SpiderJar.probeAll, h]

/-- C10 witness: with every candidate's fetch throwing, an empty cache
resolves to the fallback record (success = false, source = "fallback",
all 7 candidates tried) and caches it; and a call 100 ms after a cached
record, without force, returns it marked `cached = true`. -/
theorem getSpiderJar_spec_witness :
    SpiderJar.getSpiderJar (fun _ => "h") [7] none 0 false (fun _ => none) =
      ({ buffer := [7], md5 := "h", source := "fallback", success := false,
         cached := false, timestamp := 0, size := 1, tried := 7 },
       some { buffer := [7], md5 := "h", source := "fallback", success := false,
              cached := false, timestamp := 0, size := 1, tried := 7 }) ∧
    SpiderJar.getSpiderJar (fun _ => "h") [7]
        (some { buffer := [9], md5 := "h", source := "fallback", success := false,
                cached := false, timestamp := 0, size := 1, tried := 7 })
        100 false (fun _ => none) =
      ({ buffer := [9], md5 := "h", source := "fallback", success := false,
         cached := true, timestamp := 0, size := 1, tried := 7 },
       some { buffer := [9], md5 := "h", source := "fallback", success := false,
              cached := false, timestamp := 0, size := 1, tried := 7 }) := by
  constructor
  · have h := (getSpiderJar_spec (fun _ => "h") [7] none 0 false (fun _ => none)).2.2.2
      (Or.inl rfl)
    have h2 := h.2 (fun u _ => rfl)
    simpa using h2
  · have h := (getSpiderJar_spec (fun _ => "h") [7]
        (some { buffer := [9], md5 := "h", source := "fallback", success := false,
                cached := false, timestamp := 0, size := 1, tried := 7 })
        100 false (fun _ => none)).2.2.1
        { buffer := [9], md5 := "h", source := "fallback", success := false,
          cached := false, timestamp := 0, size := 1, tried := 7 }
        rfl rfl (by norm_num [SpiderJar.TTL])
    simpa using h

end LunaTV
